import Mathlib

/-
Verification of the home-irrigation controller (src/irrigation.c and
src/relay_module_main.cpp) against its natural-language specification.

Modelling conventions:
- C `float`/`double` arithmetic is modelled over ℚ (exact arithmetic); the
  claims under study are algebraic properties of the demand formula and of
  control flow, not floating-point rounding properties.
- C integer types (`long`, `int`) are modelled as ℤ, with ℕ used where the
  source value is known non-negative (timer values derived from a positive
  demand).
- The jansson JSON API is modelled over an inductive `Json` type, with
  `Option Json` standing for a possibly-NULL `json_t *` (jansson accessors
  return NULL on type mismatch and propagate NULL silently, which `Option`
  mirrors).
- `strtof` on a genuine C string is kept abstract as a parameter
  `stf : String → ℚ`, since no claim depends on the numeric value of a
  parsed string; `strtof(NULL, ...)` — which the source reaches whenever
  `json_string_value` returned NULL — is a null-pointer dereference, modelled
  as `none` (the parse crashes and returns nothing).
-/

/-- A garden section as read from the irrigation records file
(struct `garden_section` in irrigation.c plus the "Gallons" field of its
persisted record, which the source reads inline at line 500). -/
structure GardenSection where
  name : String
  PF : ℚ
  LA : ℤ
  days_since : ℚ
  gallons : ℚ
  relay_num : ℤ
  controller_num : ℤ
  deriving Repr, DecidableEq

/-- irrigation.c line 448: `effective_precipitation = cimis_out.precip * 0.5 * 0.623`,
computed once per cycle and shared by every section. -/
def effective_precipitation (precip : ℚ) : ℚ :=
  precip * 0.5 * 0.623

/-- irrigation.c lines 495-503: if more than 7 days have passed since the last
irrigation the stored gallons are ignored, otherwise they count at 0.7
efficiency. -/
def effective_irrigation (days_since gallons : ℚ) : ℚ :=
  if 7 < days_since then 0 else gallons * 0.7

/-- irrigation.c line 505: the un-clamped demand
`Et0 * PF * LA * 0.623 - effective_precipitation - effective_irrigation`. -/
def raw_demand (et0 precip : ℚ) (s : GardenSection) : ℚ :=
  et0 * s.PF * (s.LA : ℚ) * 0.623 - effective_precipitation precip
    - effective_irrigation s.days_since s.gallons

/-- irrigation.c lines 505-508: the demand, clamped to 0 when non-positive. -/
def water_demand (et0 precip : ℚ) (s : GardenSection) : ℚ :=
  if raw_demand et0 precip s ≤ 0 then 0 else raw_demand et0 precip s

lemma water_demand_eq_max (et0 precip : ℚ) (s : GardenSection) :
    water_demand et0 precip s = max 0 (raw_demand et0 precip s) := by
  unfold water_demand
  rcases le_or_lt (raw_demand et0 precip s) 0 with h | h
  · simp [h, max_eq_left h]
  · simp [not_le.mpr h, max_eq_right h.le]

/-- Claim C4: for every zone, `computed_demand` equals
`max 0 (ETo * PF * LA * 0.623 - effective_precipitation - effective_irrigation)`,
where `effective_precipitation = precip * 0.5 * 0.623` is one shared value of the
cycle's precipitation alone, and `effective_irrigation` is
`last_irrigation_volume * 0.7` when `days_since ≤ 7` and exactly 0 when
`days_since > 7`, regardless of the stored volume. -/
theorem demand_formula (et0 precip : ℚ) (s : GardenSection) :
    water_demand et0 precip s =
      max 0 (et0 * s.PF * (s.LA : ℚ) * 0.623 - effective_precipitation precip
        - effective_irrigation s.days_since s.gallons)
    ∧ effective_precipitation precip = precip * 0.5 * 0.623
    ∧ (7 < s.days_since → effective_irrigation s.days_since s.gallons = 0)
    ∧ (s.days_since ≤ 7 →
        effective_irrigation s.days_since s.gallons = s.gallons * 0.7) := by
  refine ⟨water_demand_eq_max et0 precip s, rfl, ?_, ?_⟩
  · intro h
    simp [effective_irrigation, h]
  · intro h
    simp [effective_irrigation, not_lt.mpr h]

/-- Witness for C4 at a concrete zone: ETo 1.75 in, precip 0, PF 1, LA 96,
last irrigation 3 days ago with 50 gallons recorded. -/
theorem demand_formula_witness :
    water_demand (7/4) 0
        ⟨"spec_example", 1, 96, 3, 50, 2, 1⟩ =
      max 0 ((7/4 : ℚ) * 1 * (96 : ℚ) * 0.623 - effective_precipitation 0
        - effective_irrigation 3 50)
    ∧ effective_irrigation (3 : ℚ) (50 : ℚ) = (50 : ℚ) * 0.7 := by
  have h := demand_formula (7/4) 0 ⟨"spec_example", 1, 96, 3, 50, 2, 1⟩
  exact ⟨h.1, h.2.2.2 (by norm_num)⟩

/-- Claim C5: the demand is never negative, and a non-positive raw result is
clamped to exactly 0. -/
theorem demand_nonneg_clamped (et0 precip : ℚ) (s : GardenSection) :
    0 ≤ water_demand et0 precip s
    ∧ (raw_demand et0 precip s ≤ 0 → water_demand et0 precip s = 0) := by
  constructor
  · rw [water_demand_eq_max]
    exact le_max_left 0 _
  · intro h
    simp [water_demand, h]

/-- Witness for C5 at a concrete zone whose raw demand is negative (heavy
precipitation, small area). -/
theorem demand_nonneg_clamped_witness :
    raw_demand 0 10 ⟨"rainy", 1, 1, 8, 0, 2, 1⟩ ≤ 0
    ∧ water_demand 0 10 ⟨"rainy", 1, 1, 8, 0, 2, 1⟩ = 0 := by
  have hraw : raw_demand 0 10 ⟨"rainy", 1, 1, 8, 0, 2, 1⟩ ≤ 0 := by
    norm_num [raw_demand, effective_precipitation, effective_irrigation]
  exact ⟨hraw, (demand_nonneg_clamped 0 10 ⟨"rainy", 1, 1, 8, 0, 2, 1⟩).2 hraw⟩

/-- Claim C6: with PF > 0 and LA > 0 and everything else fixed, the demand is
monotonically non-decreasing in total ETo, and monotonically non-increasing in
total precipitation. -/
theorem demand_monotone (s : GardenSection) (et0 et0' precip precip' : ℚ)
    (hPF : 0 < s.PF) (hLA : 0 < s.LA) :
    (et0 ≤ et0' → water_demand et0 precip s ≤ water_demand et0' precip s)
    ∧ (precip ≤ precip' → water_demand et0 precip' s ≤ water_demand et0 precip s) := by
  have hLAq : (0 : ℚ) < (s.LA : ℚ) := by exact_mod_cast hLA
  constructor
  · intro h
    rw [water_demand_eq_max, water_demand_eq_max]
    apply max_le_max le_rfl
    unfold raw_demand
    have : et0 * s.PF * (s.LA : ℚ) * 0.623 ≤ et0' * s.PF * (s.LA : ℚ) * 0.623 := by
      nlinarith [mul_nonneg (mul_nonneg (sub_nonneg.mpr h) hPF.le) hLAq.le]
    linarith
  · intro h
    rw [water_demand_eq_max, water_demand_eq_max]
    apply max_le_max le_rfl
    unfold raw_demand
    have : effective_precipitation precip ≤ effective_precipitation precip' := by
      unfold effective_precipitation
      nlinarith
    linarith

/-- Witness for C6 at a concrete zone: raising ETo from 1 to 2 does not lower
the demand, and raising precipitation from 0 to 1 does not raise it. -/
theorem demand_monotone_witness :
    water_demand 1 0 ⟨"mono", 1, 96, 8, 0, 2, 1⟩ ≤ water_demand 2 0 ⟨"mono", 1, 96, 8, 0, 2, 1⟩
    ∧ water_demand 1 1 ⟨"mono", 1, 96, 8, 0, 2, 1⟩ ≤ water_demand 1 0 ⟨"mono", 1, 96, 8, 0, 2, 1⟩ := by
  have h := demand_monotone ⟨"mono", 1, 96, 8, 0, 2, 1⟩ 1 2 0 1 (by norm_num) (by norm_num)
  exact ⟨h.1 (by norm_num), h.2 (by norm_num)⟩

/-- irrigation.c line 580: the actuation guard
`water_demand > 0. && (relay_num > 0 && controller_num > 0)`. -/
def eligible (et0 precip : ℚ) (s : GardenSection) : Bool :=
  decide (0 < water_demand et0 precip s)
    && (decide (0 < s.relay_num) && decide (0 < s.controller_num))

lemma eligible_iff (et0 precip : ℚ) (s : GardenSection) :
    eligible et0 precip s = true ↔
      0 < water_demand et0 precip s ∧ 0 < s.relay_num ∧ 0 < s.controller_num := by
  simp [eligible]

/-- irrigation.c line 584: `long irr_timer = (long)(1000 * water_demand)`;
for the non-negative demands this cast truncates like a floor. -/
def irr_timer (wd : ℚ) : ℕ :=
  (⌊1000 * wd⌋).toNat

/-- irrigation.c lines 592-594: the publish at line 593 is reached only for
`controller_num == 1` (the only controller with a topic so far), on top of the
line-580 eligibility guard. -/
def command_sent (et0 precip : ℚ) (s : GardenSection) : Bool :=
  eligible et0 precip s && decide (s.controller_num = 1)

/-- One `mosquitto_publish` of a relay command, stamped with the sequencer's
clock (milliseconds since the actuation loop started). -/
structure PubEvent where
  zone : GardenSection
  timer_ms : ℕ
  time_ms : ℕ
  deriving Repr, DecidableEq

/-- irrigation.c lines 578-607: the actuation loop.  For each section passing
the line-580 guard the command is published only when `controller_num == 1`
(line 592), then the process sleeps `irr_timer/1000 + 1` seconds (lines
596-599) whether or not anything was published.  The clock advances by the
sleep in milliseconds. -/
def runSeq (et0 precip : ℚ) : List GardenSection → ℕ → List PubEvent
  | [], _ => []
  | s :: rest, clock =>
    if eligible et0 precip s then
      let it := irr_timer (water_demand et0 precip s)
      (if s.controller_num = 1 then [⟨s, it, clock⟩] else [])
        ++ runSeq et0 precip rest (clock + 1000 * (it / 1000 + 1))
    else runSeq et0 precip rest clock

lemma runSeq_map_zone (et0 precip : ℚ) :
    ∀ (ss : List GardenSection) (clock : ℕ),
      (runSeq et0 precip ss clock).map PubEvent.zone
        = ss.filter (command_sent et0 precip)
  | [], _ => rfl
  | s :: rest, clock => by
    by_cases he : eligible et0 precip s
    · by_cases hc : s.controller_num = 1
      · simp [runSeq, he, hc, command_sent, List.filter,
          runSeq_map_zone et0 precip rest]
      · simp [runSeq, he, hc, command_sent, List.filter,
          runSeq_map_zone et0 precip rest]
    · simp [runSeq, he, command_sent, List.filter,
        runSeq_map_zone et0 precip rest]

lemma runSeq_time_lb (et0 precip : ℚ) :
    ∀ (ss : List GardenSection) (clock : ℕ) (e : PubEvent),
      e ∈ runSeq et0 precip ss clock → clock ≤ e.time_ms
  | [], _, _, h => by simp [runSeq] at h
  | s :: rest, clock, e, h => by
    by_cases he : eligible et0 precip s
    · simp only [runSeq, he, if_true, List.mem_append] at h
      rcases h with h | h
      · by_cases hc : s.controller_num = 1
        · simp [hc] at h
          subst h
          exact le_refl _
        · simp [hc] at h
      · have := runSeq_time_lb et0 precip rest _ e h
        omega
    · simp only [runSeq, he, if_false] at h
      exact runSeq_time_lb et0 precip rest clock e h

lemma runSeq_mem_sent (et0 precip : ℚ) :
    ∀ (ss : List GardenSection) (clock : ℕ) (e : PubEvent),
      e ∈ runSeq et0 precip ss clock → command_sent et0 precip e.zone = true
  | [], _, _, h => by simp [runSeq] at h
  | s :: rest, clock, e, h => by
    by_cases he : eligible et0 precip s
    · simp only [runSeq, he, if_true, List.mem_append] at h
      rcases h with h | h
      · by_cases hc : s.controller_num = 1
        · simp [hc] at h
          subst h
          simp [command_sent, he, hc]
        · simp [hc] at h
      · exact runSeq_mem_sent et0 precip rest _ e h
    · simp only [runSeq, he, if_false] at h
      exact runSeq_mem_sent et0 precip rest clock e h

lemma runSeq_chain (et0 precip : ℚ) :
    ∀ (ss : List GardenSection) (clock : ℕ),
      List.Chain' (fun a b => a.time_ms + a.timer_ms < b.time_ms)
        (runSeq et0 precip ss clock)
  | [], _ => by simp [runSeq]
  | s :: rest, clock => by
    by_cases he : eligible et0 precip s
    · by_cases hc : s.controller_num = 1
      · simp only [runSeq, he, if_true, hc, List.singleton_append]
        refine List.chain'_cons'.mpr ⟨?_, runSeq_chain et0 precip rest _⟩
        intro y hy
        have hmem : y ∈ runSeq et0 precip rest
            (clock + 1000 * (irr_timer (water_demand et0 precip s) / 1000 + 1)) :=
          List.mem_of_mem_head? hy
        have hlb := runSeq_time_lb et0 precip rest _ y hmem
        simp only
        omega
      · simp only [runSeq, he, if_true, hc, if_false, List.nil_append]
        exact runSeq_chain et0 precip rest _
    · simp only [runSeq, he, if_false]
      exact runSeq_chain et0 precip rest clock

/-- A demo section on controller 1: PF 1, LA 1 sq ft, last irrigation 8 days
ago, relay 2.  With ETo 1 in and no precipitation its demand is 0.623 gal. -/
def back_zone : GardenSection :=
  ⟨"back", 1, 1, 8, 0, 2, 1⟩

/-- A demo section identical to `back_zone` but wired to controller 2, for
which irrigation.c has no topic yet (comment at line 594). -/
def side_zone : GardenSection :=
  ⟨"side", 1, 1, 8, 0, 3, 2⟩

/-- A demo section whose relay is recorded as 0, i.e. offline hardware. -/
def off_zone : GardenSection :=
  ⟨"offline", 1, 1, 8, 0, 0, 1⟩

lemma wd_back : water_demand 1 0 back_zone = 623/1000 := by
  norm_num [water_demand, raw_demand, effective_precipitation,
    effective_irrigation, back_zone]

lemma wd_side : water_demand 1 0 side_zone = 623/1000 := by
  norm_num [water_demand, raw_demand, effective_precipitation,
    effective_irrigation, side_zone]

lemma eligible_back : eligible 1 0 back_zone = true := by
  rw [eligible_iff, wd_back]
  refine ⟨by norm_num, by norm_num [back_zone], by norm_num [back_zone]⟩

lemma eligible_side : eligible 1 0 side_zone = true := by
  rw [eligible_iff, wd_side]
  refine ⟨by norm_num, by norm_num [side_zone], by norm_num [side_zone]⟩

lemma irr_timer_back : irr_timer (water_demand 1 0 back_zone) = 623 := by
  rw [wd_back]
  norm_num [irr_timer]
  rfl

/-- Claim C1 fails as stated: with the single eligible zone `side_zone`
(demand 0.623 gal, relay 3, controller 2) the cycle has N = 1
actuation-eligible zones but publishes 0 relay commands, because the publish
at irrigation.c line 593 is additionally guarded by `controller_num == 1`. -/
theorem sequencer_publish_miscount :
    (List.filter (eligible 1 0) [side_zone]).length = 1
    ∧ (runSeq 1 0 [side_zone] 0).length = 0 := by
  constructor
  · simp [List.filter, eligible_side]
  · simp [runSeq, eligible_side, side_zone]

/-- Claim C1 (amended): the zones published are exactly the eligible zones
whose `controller_id` is 1 (the only controller a topic exists for), strictly
one at a time and in registry order, and each publish is separated from the
next by more than the published zone's `duration_ms`, because the sequencer
blocks for `duration_ms/1000 + 1` whole seconds after every eligible zone. -/
theorem sequencer_serialized (et0 precip : ℚ) (ss : List GardenSection) (clock : ℕ) :
    (runSeq et0 precip ss clock).map PubEvent.zone = ss.filter (command_sent et0 precip)
    ∧ List.Chain' (fun a b => a.time_ms + a.timer_ms < b.time_ms)
        (runSeq et0 precip ss clock) :=
  ⟨runSeq_map_zone et0 precip ss clock, runSeq_chain et0 precip ss clock⟩

/-- Witness for the amended C1 on a concrete two-zone registry. -/
theorem sequencer_serialized_witness :
    (runSeq 1 0 [back_zone, side_zone] 0).map PubEvent.zone
      = [back_zone, side_zone].filter (command_sent 1 0)
    ∧ List.Chain' (fun a b => a.time_ms + a.timer_ms < b.time_ms)
        (runSeq 1 0 [back_zone, side_zone] 0) :=
  sequencer_serialized 1 0 [back_zone, side_zone] 0

/-- Claim C7: a zone with `relay_id ≤ 0` or `controller_id ≤ 0` never has a
command published, whatever its demand, and the actuation-eligible guard is
exactly `computed_demand > 0 ∧ relay_id > 0 ∧ controller_id > 0`. -/
theorem offline_never_published (et0 precip : ℚ) (ss : List GardenSection)
    (clock : ℕ) (s : GardenSection)
    (h : s.relay_num ≤ 0 ∨ s.controller_num ≤ 0) :
    s ∉ (runSeq et0 precip ss clock).map PubEvent.zone
    ∧ (eligible et0 precip s = true ↔
        (0 < water_demand et0 precip s ∧ 0 < s.relay_num ∧ 0 < s.controller_num)) := by
  refine ⟨?_, eligible_iff et0 precip s⟩
  intro hmem
  rcases List.mem_map.mp hmem with ⟨e, he, rfl⟩
  have hs := runSeq_mem_sent et0 precip ss clock e he
  simp only [command_sent, Bool.and_eq_true] at hs
  rcases (eligible_iff et0 precip e.zone).mp hs.1 with ⟨_, hr, hc⟩
  rcases h with h | h
  · omega
  · omega

/-- Witness for C7: the offline `off_zone` (relay 0) is never published even
though it heads the registry. -/
theorem offline_never_published_witness :
    off_zone ∉ (runSeq 1 0 [off_zone] 0).map PubEvent.zone
    ∧ (eligible 1 0 off_zone = true ↔
        (0 < water_demand 1 0 off_zone ∧ 0 < off_zone.relay_num
          ∧ 0 < off_zone.controller_num)) :=
  offline_never_published 1 0 [off_zone] 0 off_zone (Or.inl (by norm_num [off_zone]))

/-- irrigation.c lines 539-554: `mosq_error` counts how many of the three
client-setup steps failed — client creation (line 539), username/password
setup (line 545), broker connection (line 551). -/
def mosq_error (new_ok pw_ok connect_ok : Bool) : ℕ :=
  (if new_ok then 0 else 1)
    + ((if pw_ok then 0 else 1) + (if connect_ok then 0 else 1))

/-- irrigation.c line 556: the cycle is abandoned (return -1 at line 568,
before any publish and before the records file is rewritten) only when
`mosq_error > 1`. -/
def mqtt_gate_aborts (new_ok pw_ok connect_ok : Bool) : Bool :=
  decide (1 < mosq_error new_ok pw_ok connect_ok)

/-- What a cycle leaves behind after the MQTT gate: the published commands and
whether the irrigation records file was rewritten. -/
structure CycleOutcome where
  published : List PubEvent
  persistence_written : Bool
  deriving Repr, DecidableEq

/-- irrigation.c lines 539-614: if the MQTT gate aborts, nothing is published
and `json_dump_file` (line 612) is never reached; otherwise the actuation loop
runs and the records file is rewritten. -/
def run_cycle (new_ok pw_ok connect_ok : Bool) (et0 precip : ℚ)
    (ss : List GardenSection) : CycleOutcome :=
  if mqtt_gate_aborts new_ok pw_ok connect_ok then ⟨[], false⟩
  else ⟨runSeq et0 precip ss 0, true⟩

/-- Claim C2 names a code bug: when only the broker connection fails while
client creation and credential setup succeed, `mosq_error` is 1, the `> 1`
gate at line 556 does not fire, and the cycle still publishes a relay command
and rewrites the records file — the source's own abort message ("was unable to
connect to MQTT broker, stopping program") and the spec both promise a fatal
abort with no actuation and no persistence write. -/
theorem broker_failure_not_fatal :
    mosq_error true true false = 1
    ∧ mqtt_gate_aborts true true false = false
    ∧ run_cycle true true false 1 0 [back_zone]
        = ⟨[⟨back_zone, 623, 0⟩], true⟩ := by
  refine ⟨rfl, rfl, ?_⟩
  have hrun : runSeq 1 0 [back_zone] 0 = [⟨back_zone, 623, 0⟩] := by
    have hctrl : back_zone.controller_num = 1 := rfl
    simp [runSeq, eligible_back, hctrl, irr_timer_back]
  simp [run_cycle, mqtt_gate_aborts, mosq_error, hrun]

/-- One zone's entry in the persisted irrigation records file: its "Date" and
"Gallons" fields (the gallons string is modelled by its numeric value). -/
structure IrrRecord where
  date : String
  gallons : ℚ
  deriving Repr, DecidableEq

/-- irrigation.c lines 506 and 515-522: during the demand loop, the in-memory
record of every section with positive demand and `relay_num > 0 &&
controller_num > 0` gets "Date" set to the cycle date and "Gallons" set to the
computed demand; every other record keeps its old fields.  The whole document
is written back at line 612. -/
def persisted_record (et0 precip : ℚ) (cycle_date : String)
    (s : GardenSection) (old : IrrRecord) : IrrRecord :=
  if 0 < water_demand et0 precip s ∧ 0 < s.relay_num ∧ 0 < s.controller_num
  then ⟨cycle_date, water_demand et0 precip s⟩
  else old

/-- Claim C3 fails as stated: `side_zone` (demand 0.623 gal, relay 3,
controller 2) never has a command published, since only controller 1 has a
topic, and it is not in the claim's no-command set (demand 0, relay ≤ 0 or
controller ≤ 0) — yet its persisted Date and Gallons are rewritten. -/
theorem persistence_updates_unsent_zone :
    command_sent 1 0 side_zone = false
    ∧ ¬(water_demand 1 0 side_zone = 0 ∨ side_zone.relay_num ≤ 0
        ∨ side_zone.controller_num ≤ 0)
    ∧ persisted_record 1 0 "2024-08-02 00:00:00" side_zone
        ⟨"2024-07-26 00:00:00", 50⟩ ≠ ⟨"2024-07-26 00:00:00", 50⟩ := by
  refine ⟨?_, ?_, ?_⟩
  · simp [command_sent, side_zone]
  · push_neg
    refine ⟨by rw [wd_side]; norm_num, by norm_num [side_zone], by norm_num [side_zone]⟩
  · have hcond : 0 < water_demand 1 0 side_zone ∧ 0 < side_zone.relay_num
        ∧ 0 < side_zone.controller_num :=
      ⟨by rw [wd_side]; norm_num, by norm_num [side_zone], by norm_num [side_zone]⟩
    rw [persisted_record, if_pos hcond, wd_side]
    intro hcontra
    rw [IrrRecord.mk.injEq] at hcontra
    norm_num at hcontra

/-- Claim C3 (amended): after the cycle, every zone that had a command sent is
rewritten to `(cycle_date, computed_demand)`; more precisely the records
rewritten are exactly those of the actuation-eligible zones — including
eligible zones on controllers other than 1, for which no command was actually
published — while zones with zero demand, `relay_id ≤ 0` or `controller_id ≤ 0`
keep their Date and Gallons unchanged. -/
theorem persistence_update_rule (et0 precip : ℚ) (cd : String)
    (s : GardenSection) (old : IrrRecord) :
    (command_sent et0 precip s = true →
      persisted_record et0 precip cd s old = ⟨cd, water_demand et0 precip s⟩)
    ∧ (eligible et0 precip s = true →
      persisted_record et0 precip cd s old = ⟨cd, water_demand et0 precip s⟩)
    ∧ ((water_demand et0 precip s = 0 ∨ s.relay_num ≤ 0 ∨ s.controller_num ≤ 0) →
      persisted_record et0 precip cd s old = old) := by
  have hupd : eligible et0 precip s = true →
      persisted_record et0 precip cd s old = ⟨cd, water_demand et0 precip s⟩ := by
    intro he
    exact if_pos ((eligible_iff et0 precip s).mp he)
  refine ⟨?_, hupd, ?_⟩
  · intro hcs
    simp only [command_sent, Bool.and_eq_true] at hcs
    exact hupd hcs.1
  · intro h
    apply if_neg
    rintro ⟨h1, h2, h3⟩
    rcases h with h | h | h
    · rw [h] at h1
      exact lt_irrefl 0 h1
    · omega
    · omega

/-- Witness for the amended C3: the eligible `back_zone` record is rewritten
to the cycle date and the computed demand. -/
theorem persistence_update_rule_witness :
    persisted_record 1 0 "2024-08-02 00:00:00" back_zone ⟨"2024-07-26 00:00:00", 50⟩
      = ⟨"2024-08-02 00:00:00", water_demand 1 0 back_zone⟩ :=
  (persistence_update_rule 1 0 "2024-08-02 00:00:00" back_zone
    ⟨"2024-07-26 00:00:00", 50⟩).2.1 eligible_back

/-- A JSON value, mirroring jansson's `json_t`. -/
inductive Json where
  | null : Json
  | bool (b : Bool) : Json
  | str (s : String) : Json
  | num (q : ℚ) : Json
  | arr (elems : List Json) : Json
  | obj (fields : List (String × Json)) : Json

/-- jansson `json_object_get`: NULL on a non-object target or a missing key
(`none` models a NULL `json_t *`). -/
def json_object_get : Option Json → String → Option Json
  | some (Json.obj fs), k => (fs.find? fun p => p.1 == k).map Prod.snd
  | _, _ => none

def json_is_object : Option Json → Bool
  | some (Json.obj _) => true
  | _ => false

def json_is_array : Option Json → Bool
  | some (Json.arr _) => true
  | _ => false

def json_is_string : Option Json → Bool
  | some (Json.str _) => true
  | _ => false

def json_is_null : Option Json → Bool
  | some Json.null => true
  | _ => false

/-- jansson `json_array_size`: 0 on anything that is not an array. -/
def json_array_size : Option Json → ℕ
  | some (Json.arr xs) => xs.length
  | _ => 0

/-- jansson `json_array_get`: NULL out of range or on a non-array. -/
def json_array_get : Option Json → ℕ → Option Json
  | some (Json.arr xs), i => xs[i]?
  | _, _ => none

/-- jansson `json_string_value`: NULL on a non-string. -/
def json_string_value : Option Json → Option String
  | some (Json.str s) => some s
  | _ => none

/-- irrigation.c lines 204-235: the five type checks performed on one day
record inside the parse loop (record an object, DayAsceEto an object, its
Value a string, DayPrecip an object, its Value a string unless null). -/
def record_errors (gd : Option Json) : ℕ :=
  (if json_is_object gd then 0 else 1)
    + ((if json_is_object (json_object_get gd "DayAsceEto") then 0 else 1)
    + ((if json_is_string (json_object_get (json_object_get gd "DayAsceEto") "Value")
        then 0 else 1)
    + ((if json_is_object (json_object_get gd "DayPrecip") then 0 else 1)
    + (if json_is_null (json_object_get (json_object_get gd "DayPrecip") "Value")
       then 0
       else if json_is_string (json_object_get (json_object_get gd "DayPrecip") "Value")
       then 0 else 1))))

/-- irrigation.c lines 216-219: the day's ETo contribution.  The source runs
`eto_value = json_string_value(EToValue); total_eto += strtof(eto_value, NULL);`
unconditionally, even after a failed `json_is_string` check was counted: when
`EToValue` is not a string (or is missing because the record or `DayAsceEto`
was not an object), `json_string_value` returns NULL and `strtof(NULL, ...)`
dereferences a null pointer.  `none` models that crash. -/
def record_eto (stf : String → ℚ) (gd : Option Json) : Option ℚ :=
  (json_string_value (json_object_get (json_object_get gd "DayAsceEto") "Value")).map stf

/-- irrigation.c lines 227-241: the day's precipitation contribution — unlike
the ETo path this one is guarded by the else-if chain, so nothing is added
(and nothing crashes) when the value is null or not a string.  (The `getD`
default is unreachable: the string check guarantees a value.) -/
def record_precip (stf : String → ℚ) (gd : Option Json) : ℚ :=
  if json_is_null (json_object_get (json_object_get gd "DayPrecip") "Value") then 0
  else if json_is_string (json_object_get (json_object_get gd "DayPrecip") "Value")
  then ((json_string_value (json_object_get (json_object_get gd "DayPrecip") "Value")).map stf).getD 0
  else 0

/-- irrigation.c lines 175-195: the navigation
`root → "Data" → "Providers" → [0] → "Records"`. -/
def cimis_records (root : Option Json) : Option Json :=
  json_object_get
    (json_array_get (json_object_get (json_object_get root "Data") "Providers") 0)
    "Records"

/-- irrigation.c lines 175-195: the four header type checks before the loop. -/
def hdr_errors (root : Option Json) : ℕ :=
  (if json_is_object (json_object_get root "Data") then 0 else 1)
    + ((if json_is_array (json_object_get (json_object_get root "Data") "Providers")
        then 0 else 1)
    + ((if json_is_object
          (json_array_get (json_object_get (json_object_get root "Data") "Providers") 0)
        then 0 else 1)
    + (if json_is_array (cimis_records root) then 0 else 1)))

/-- struct `cimis_results` of irrigation.c. -/
structure cimis_results where
  Et0 : ℚ
  precip : ℚ
  parse_errors : ℕ

/-- The loop of irrigation.c lines 200-243 over the record indices, threading
`(error_count, total_eto, total_precipitation)`: each record's five type
checks are counted, then the unguarded `strtof` of the ETo value runs —
`none` kills the whole parse at the first record whose ETo value is not a
string (the process dies there, so the counts gathered so far are lost). -/
def parse_loop (stf : String → ℚ) (Records : Option Json) :
    List ℕ → ℕ × ℚ × ℚ → Option (ℕ × ℚ × ℚ)
  | [], acc => some acc
  | i :: rest, acc =>
    let gd := json_array_get Records i
    match record_eto stf gd with
    | none => none
    | some e =>
      parse_loop stf Records rest
        (acc.1 + record_errors gd, acc.2.1 + e, acc.2.2 + record_precip stf gd)

/-- irrigation.c lines 162-250, `parse_cimis_json`: the header checks followed
by the loop over `json_array_size(Records)` day records; `none` is the
`strtof(NULL, ...)` crash inside the loop. -/
def parse_cimis_json (stf : String → ℚ) (root : Option Json) : Option cimis_results :=
  (parse_loop stf (cimis_records root)
      (List.range (json_array_size (cimis_records root))) (hdr_errors root, 0, 0)).map
    fun out => ⟨out.2.1, out.2.2, out.1⟩

/-- irrigation.c lines 414-417: when `parse_cimis_json` does return, the cycle
is abandoned (return 1) exactly when `cimis_out.parse_errors > 0`. -/
def abort_on_parse (res : cimis_results) : Bool :=
  decide (0 < res.parse_errors)

/-- A day record whose ETo value has the wrong type (a number, not a string). -/
def bad_eto_day : Json :=
  Json.obj [("DayAsceEto", Json.obj [("Value", Json.num 1)]),
    ("DayPrecip", Json.obj [("Value", Json.str "0.0")])]

/-- A well-typed day record with a null precipitation value. -/
def good_day : Json :=
  Json.obj [("DayAsceEto", Json.obj [("Value", Json.str "0.25")]),
    ("DayPrecip", Json.obj [("Value", Json.null)])]

/-- A day record whose precipitation value has the wrong type. -/
def bad_precip_day : Json :=
  Json.obj [("DayAsceEto", Json.obj [("Value", Json.str "0.1")]),
    ("DayPrecip", Json.obj [("Value", Json.num 2)])]

/-- A weather document whose first record has a type-mismatched ETo value. -/
def demo_doc : Json :=
  Json.obj [("Data", Json.obj [("Providers",
    Json.arr [Json.obj [("Records", Json.arr [bad_eto_day, good_day, bad_precip_day])]])])]

/-- A weather document whose only flaw is a type-mismatched precipitation
value in its second of three records. -/
def precip_doc : Json :=
  Json.obj [("Data", Json.obj [("Providers",
    Json.arr [Json.obj [("Records", Json.arr [good_day, bad_precip_day, good_day])]])])]

/-- Claim C8 names a code bug: aggregation is intended — the precipitation
path is guarded, mismatches there are counted across all records of
`precip_doc` and surfaced, and main aborts exactly when the count is positive
— but the unguarded `strtof(json_string_value(EToValue), NULL)` of
irrigation.c lines 216-219 crashes on the first record whose ETo value is not
a string, so on `demo_doc` (whose first record is type-mismatched, with one
counted error) the parse dies instead of visiting the remaining records and
returning an aggregate count. -/
theorem parse_crash_on_bad_eto :
    parse_cimis_json (fun _ => 0) (some demo_doc) = none
    ∧ record_errors (json_array_get (cimis_records (some demo_doc)) 0) = 1
    ∧ parse_cimis_json (fun _ => 0) (some precip_doc) = some ⟨0, 0, 1⟩
    ∧ abort_on_parse ⟨0, 0, 1⟩ = true := by
  refine ⟨rfl, rfl, ?_, rfl⟩
  have h1 : parse_cimis_json (fun _ => 0) (some precip_doc)
      = some ⟨0 + 0 + 0 + 0, 0 + 0 + 0 + 0, 1⟩ := rfl
  rw [h1]
  norm_num

/-- Fuel-driven digit count helper (the fuel argument only bounds recursion). -/
def digitsAux : ℕ → ℕ → ℕ
  | 0, _ => 1
  | fuel + 1, n => if n < 10 then 1 else digitsAux fuel (n / 10) + 1

/-- The number of characters `%lu` prints for n. -/
def decimal_digits (n : ℕ) : ℕ :=
  digitsAux n n

/-- irrigation.c lines 589-590: `sprintf(mssg_out, "%lu %lu", relay_num,
irr_timer)` writes this many bytes, terminating NUL included. -/
def sprintf_bytes (relay timer : ℕ) : ℕ :=
  decimal_digits relay + 1 + decimal_digits timer + 1

/-- irrigation.c line 589: `char mssg_out[7]`. -/
def MSSG_OUT_SIZE : ℕ :=
  7

/-- The spec's own worked example zone: PF 1, LA 96 sq ft, relay 2 on
controller 1, no irrigation within the 7-day window. -/
def bed96_zone : GardenSection :=
  ⟨"bed96", 1, 96, 8, 0, 2, 1⟩

lemma wd_bed96 : water_demand (7/4) 0 bed96_zone = 13083/125 := by
  norm_num [water_demand, raw_demand, effective_precipitation,
    effective_irrigation, bed96_zone]

/-- Claim C9 names a code bug: with the spec's own example weather (ETo 1.75
in over the window, no precipitation) the eligible `bed96_zone` has demand
104.664 gallons, so `irr_timer` is 104664 and sprintf writes "2 104664" plus
the NUL — 9 bytes — into the 7-byte `mssg_out` buffer. -/
theorem mssg_out_overflow :
    eligible (7/4) 0 bed96_zone = true
    ∧ water_demand (7/4) 0 bed96_zone = 13083/125
    ∧ irr_timer (water_demand (7/4) 0 bed96_zone) = 104664
    ∧ sprintf_bytes bed96_zone.relay_num.toNat
        (irr_timer (water_demand (7/4) 0 bed96_zone)) = 9
    ∧ MSSG_OUT_SIZE < 9 := by
  have ht : irr_timer (water_demand (7/4) 0 bed96_zone) = 104664 := by
    rw [wd_bed96]
    norm_num [irr_timer]
    rfl
  refine ⟨?_, wd_bed96, ht, ?_, by norm_num [MSSG_OUT_SIZE]⟩
  · rw [eligible_iff, wd_bed96]
    refine ⟨by norm_num, by norm_num [bed96_zone], by norm_num [bed96_zone]⟩
  · rw [ht]
    rfl

/-- The whitespace set `isspace` consults while `atoi` skips leading blanks. -/
def isSpaceC (c : Char) : Bool :=
  decide (c = ' ') || decide (c = '\t') || decide (c = '\n')
    || decide (c = '\x0b') || decide (c = '\x0c') || decide (c = '\r')

/-- The `isdigit` test of C's `atoi`. -/
def is_digit_c (c : Char) : Bool :=
  decide (48 ≤ c.toNat) && decide (c.toNat ≤ 57)

/-- Numeric value of one ASCII digit. -/
def digit_val (c : Char) : ℤ :=
  (c.toNat : ℤ) - 48

/-- The digit-consuming loop of C's `atoi`: stops at the first non-digit. -/
def parseDigits : List Char → ℤ → ℤ
  | [], acc => acc
  | c :: cs, acc => if is_digit_c c then parseDigits cs (10 * acc + digit_val c) else acc

/-- C `atoi`: skip leading whitespace, accept an optional sign, then consume
digits up to the first non-digit. -/
def atoi (cs : List Char) : ℤ :=
  match cs.dropWhile isSpaceC with
  | [] => 0
  | c :: rest =>
    if c = '-' then - parseDigits rest 0
    else if c = '+' then parseDigits rest 0
    else parseDigits (c :: rest) 0

/-- The pair of globals `curr_contrlr_done` / `curr_relay_done` of
irrigation.c lines 46-47. -/
structure AckState where
  curr_contrlr_done : ℤ
  curr_relay_done : ℤ
  deriving Repr, DecidableEq

/-- irrigation.c lines 297-305, `on_message`: record
`atoi(payload)` and `atoi(payload + 1)`. -/
def on_message (payload : List Char) : AckState :=
  ⟨atoi payload, atoi (payload.drop 1)⟩

/-- irrigation.c line 602: the post-wait confirmation check
`curr_contrlr_done == controller_num && curr_relay_done == relay_num`. -/
def ack_matches (st : AckState) (s : GardenSection) : Bool :=
  decide (st.curr_contrlr_done = s.controller_num)
    && decide (st.curr_relay_done = s.relay_num)

/-- Most-significant-first decimal value of a digit string. -/
def decValue (ds : List Char) : ℤ :=
  ds.foldl (fun a c => 10 * a + digit_val c) 0

lemma parseDigits_all_digits :
    ∀ (ds : List Char) (a : ℤ), (∀ c ∈ ds, is_digit_c c = true) →
      parseDigits ds a = ds.foldl (fun x c => 10 * x + digit_val c) a
  | [], a, _ => rfl
  | c :: cs, a, h => by
    rw [parseDigits, if_pos (h c (List.mem_cons_self c cs)), List.foldl_cons]
    exact parseDigits_all_digits cs _ fun x hx => h x (List.mem_cons_of_mem c hx)

lemma digit_toNat {d : Char} (h : is_digit_c d = true) :
    48 ≤ d.toNat ∧ d.toNat ≤ 57 := by
  simp [is_digit_c] at h
  exact h

lemma digit_not_space {d : Char} (h : is_digit_c d = true) : isSpaceC d = false := by
  rcases digit_toNat h with ⟨h1, _⟩
  simp only [isSpaceC, Bool.or_eq_false_iff, decide_eq_false_iff_not]
  refine ⟨⟨⟨⟨⟨?_, ?_⟩, ?_⟩, ?_⟩, ?_⟩, ?_⟩ <;>
    (intro he; subst he; revert h1; decide)

lemma digit_not_minus {d : Char} (h : is_digit_c d = true) : d ≠ '-' := by
  rcases digit_toNat h with ⟨h1, _⟩
  intro he
  subst he
  revert h1
  decide

lemma digit_not_plus {d : Char} (h : is_digit_c d = true) : d ≠ '+' := by
  rcases digit_toNat h with ⟨h1, _⟩
  intro he
  subst he
  revert h1
  decide

lemma space_not_digit : is_digit_c ' ' = false := by
  decide

/-- Claim C10: on an acknowledgment payload of the form "c r" — a single
digit c, a space, then the digits of r — `on_message` records controller
value c and relay value r, and the sequencer's post-wait check succeeds
exactly when that recorded pair equals the just-sent command's
`(controller_id, relay_id)`. -/
theorem ack_roundtrip (d : Char) (ds : List Char) (s : GardenSection)
    (hd : is_digit_c d = true) (hds : ∀ c ∈ ds, is_digit_c c = true)
    (hne : ds ≠ []) :
    (on_message (d :: ' ' :: ds)).curr_contrlr_done = digit_val d
    ∧ (on_message (d :: ' ' :: ds)).curr_relay_done = decValue ds
    ∧ (ack_matches (on_message (d :: ' ' :: ds)) s = true ↔
        (digit_val d = s.controller_num ∧ decValue ds = s.relay_num)) := by
  have hc : atoi (d :: ' ' :: ds) = digit_val d := by
    unfold atoi
    rw [List.dropWhile_cons_of_neg (by simp [digit_not_space hd])]
    show (if d = '-' then -parseDigits (' ' :: ds) 0
      else if d = '+' then parseDigits (' ' :: ds) 0
      else parseDigits (d :: ' ' :: ds) 0) = digit_val d
    rw [if_neg (digit_not_minus hd), if_neg (digit_not_plus hd)]
    rw [parseDigits, if_pos hd, parseDigits, if_neg (by simp [space_not_digit])]
    ring
  have hr : atoi ((d :: ' ' :: ds).drop 1) = decValue ds := by
    rcases List.exists_cons_of_ne_nil hne with ⟨e, tl, rfl⟩
    have hde : is_digit_c e = true := hds e (List.mem_cons_self e tl)
    show atoi (' ' :: e :: tl) = decValue (e :: tl)
    unfold atoi
    rw [List.dropWhile_cons_of_pos (by simp [isSpaceC])]
    rw [List.dropWhile_cons_of_neg (by simp [digit_not_space hde])]
    show (if e = '-' then -parseDigits tl 0
      else if e = '+' then parseDigits tl 0
      else parseDigits (e :: tl) 0) = decValue (e :: tl)
    rw [if_neg (digit_not_minus hde), if_neg (digit_not_plus hde)]
    exact parseDigits_all_digits (e :: tl) 0 hds
  have hmsg : on_message (d :: ' ' :: ds) = ⟨digit_val d, decValue ds⟩ := by
    unfold on_message
    rw [hc, hr]
  rw [hmsg]
  exact ⟨rfl, rfl, by simp [ack_matches]⟩

/-- Witness for C10: payload "1 2" confirms the command just sent to
`back_zone` (controller 1, relay 2). -/
theorem ack_roundtrip_witness :
    (on_message ['1', ' ', '2']).curr_contrlr_done = digit_val '1'
    ∧ (on_message ['1', ' ', '2']).curr_relay_done = decValue ['2']
    ∧ (ack_matches (on_message ['1', ' ', '2']) back_zone = true ↔
        (digit_val '1' = back_zone.controller_num
          ∧ decValue ['2'] = back_zone.relay_num)) :=
  ack_roundtrip '1' ['2'] back_zone (by decide) (by decide) (by decide)
